import Mathlib

/-!
Verification of the Arcane-Scribe core: a shallow embedding of the
index cache/merge engine, answer cache and query orchestrator of
`src/as-api-backend/api_backend/utils/rag_query_processor.py`, and of the
document indexer of `src/as-pdf-ingestor/pdf_ingestor/processor.py`.

External collaborators (S3, DynamoDB, Bedrock, the FAISS library) are
modelled by environment records that fix the outcome of every external
call: a FAISS index is abstracted to the list of chunk texts it holds,
and each fallible call is given an outcome distinguishing success, a
`botocore` `ClientError`, and any other raised exception, because the
Python code catches these differently.  The wrappers `S3Client`,
`DynamoDb` and `BedrockRuntimeClient` re-raise both `ClientError` and
generic exceptions (their unit tests in `tests/unit/core` pin this
down), so a raised error from a wrapper reaches the `try`/`except`
blocks of the code under verification unchanged.
-/

set_option autoImplicit false
set_option linter.unusedVariables false

namespace ArcaneScribe

/-- Document processing status, from `core/utils/enums.py`
(`DocumentProcessingStatus`). -/
inductive DocumentProcessingStatus
  | pending
  | processing
  | completed
  | failed
  deriving DecidableEq, Repr

/-- A FAISS vector store, abstracted to the list of chunk texts it holds.
`merge_from` is modelled by list append. -/
abbrev FaissIndex := List String

/-- The fields of a document metadata record that
`_load_and_merge_faiss_indices_for_srd` reads: `doc.get("document_id")`
(absent is `none`) and `doc.get("processing_status")`. -/
structure DocRecord where
  document_id : Option String
  processing_status : DocumentProcessingStatus
  deriving DecidableEq, Repr

/-- Outcome of downloading and deserializing one document's FAISS index
(the `s3_client.download_file` pair plus `FAISS.load_local`):
success with the loaded store, a raised `botocore` `ClientError`
(the only exception the per-document `except` clause catches), or any
other raised exception (for example a deserialization error from
`FAISS.load_local`), which the clause does not catch. -/
inductive LoadOutcome
  | ok (store : FaissIndex)
  | clientError
  | otherError
  deriving DecidableEq, Repr

/-- Externally observable calls made during one orchestration run. -/
inductive Event
  | dbQuery
  | s3Download (document_id : String)
  | llmInvoke
  | cachePut
  deriving DecidableEq, Repr

/-- Environment of `_load_and_merge_faiss_indices_for_srd`: the result of
the DynamoDB metadata query (`Except.error` models a raised exception,
which the code catches and turns into `None`), and the load outcome for
each document id. -/
structure MergeEnv where
  queryResult : Except Unit (List DocRecord)
  load : String → LoadOutcome

/-- `MAX_CACHE_SIZE` from `rag_query_processor.py`. -/
def MAX_CACHE_SIZE : Nat := 5

/-- `CACHE_TTL_SECONDS` from `rag_query_processor.py`. -/
def CACHE_TTL_SECONDS : Nat := 3600

/-- The composite tenant key `f"{owner_id}#{srd_id}"`. -/
def compositeKey (owner_id srd_id : String) : String :=
  owner_id ++ "#" ++ srd_id

/-- Lookup in the in-process FAISS index cache, modelled as an
insertion-ordered association list (a Python `dict` preserves insertion
order; the earliest-inserted entry is the head). -/
def cacheLookup : List (String × FaissIndex) → String → Option FaissIndex
  | [], _ => none
  | (k, v) :: rest, key => if k = key then some v else cacheLookup rest key

/-- The cache update step of `_load_and_merge_faiss_indices_for_srd`:
if `len(FAISS_INDEX_CACHE) >= MAX_CACHE_SIZE`, pop `next(iter(...))`
(the earliest-inserted key, the head of the list), then insert the new
entry (appended at the end, as a fresh `dict` key is). -/
def cacheInsert (cache : List (String × FaissIndex)) (key : String)
    (v : FaissIndex) : List (String × FaissIndex) :=
  (if MAX_CACHE_SIZE ≤ cache.length then cache.tail else cache) ++ [(key, v)]

/-- The per-document download-and-load loop of
`_load_and_merge_faiss_indices_for_srd`.  A record whose `document_id`
is absent or empty (Python falsy) is skipped before any download.  A
`ClientError` is caught, logged and the document skipped (`continue`);
any other raised exception escapes the loop and the whole function,
modelled by `Except.error`. -/
def loadStores (load : String → LoadOutcome) :
    List DocRecord → Except Unit (List FaissIndex × List Event)
  | [] => Except.ok ([], [])
  | doc :: rest =>
    match doc.document_id with
    | none => loadStores load rest
    | some document_id =>
      if document_id = "" then loadStores load rest
      else
        match load document_id with
        | LoadOutcome.otherError => Except.error ()
        | LoadOutcome.clientError =>
          match loadStores load rest with
          | Except.error e => Except.error e
          | Except.ok (stores, ev) =>
              Except.ok (stores, Event.s3Download document_id :: ev)
        | LoadOutcome.ok store =>
          match loadStores load rest with
          | Except.error e => Except.error e
          | Except.ok (stores, ev) =>
              Except.ok (store :: stores, Event.s3Download document_id :: ev)

/-- The merge step: the first loaded store is the base and every
subsequent store is merged into it (`merge_from`, modelled by append). -/
def mergeStores : List FaissIndex → FaissIndex
  | [] => []
  | first :: rest => rest.foldl (fun acc s => acc ++ s) first

/-- Shallow embedding of `_load_and_merge_faiss_indices_for_srd`.
The global `FAISS_INDEX_CACHE` is passed and returned explicitly.
The result carries the returned value (`none` models Python `None`),
the updated cache, and the external calls made; `Except.error` models an
exception escaping the function (nothing in it catches a non-`ClientError`
failure of the per-document load). -/
def load_and_merge_faiss_indices_for_srd
    (cache : List (String × FaissIndex)) (env : MergeEnv)
    (owner_id srd_id : String) :
    Except Unit (Option FaissIndex × List (String × FaissIndex) × List Event) :=
  -- 1. Check in-memory cache first
  match cacheLookup cache (compositeKey owner_id srd_id) with
  | some store => Except.ok (some store, cache, [])
  | none =>
    -- 2. Query DynamoDB for all documents in the SRD
    match env.queryResult with
    | Except.error _ => Except.ok (none, cache, [Event.dbQuery])
    | Except.ok document_records =>
      if document_records.isEmpty then
        Except.ok (none, cache, [Event.dbQuery])
      else
        -- Filter for successfully processed documents (`processed_docs`,
        -- written out where used)
        if (document_records.filter (fun d =>
            d.processing_status = DocumentProcessingStatus.completed)).isEmpty
        then
          Except.ok (none, cache, [Event.dbQuery])
        else
          -- 3. Download and load all FAISS indices
          match loadStores env.load (document_records.filter (fun d =>
              d.processing_status = DocumentProcessingStatus.completed)) with
          | Except.error e => Except.error e
          | Except.ok (vector_stores, ev) =>
            if vector_stores.isEmpty then
              Except.ok (none, cache, Event.dbQuery :: ev)
            else
              -- 4. Merge the indices, 5. update cache
              Except.ok (some (mergeStores vector_stores),
                cacheInsert cache (compositeKey owner_id srd_id)
                  (mergeStores vector_stores),
                Event.dbQuery :: ev)

/-- Outcome of one attempt to create a `ChatBedrock` instance or of the
query-cache `put_item` call: success, a raised `ClientError`, or any
other raised exception. -/
inductive StepOutcome
  | ok
  | clientError
  | otherError
  deriving DecidableEq, Repr

/-- Generation parameters of the request
(`generation_config_payload`). -/
structure GenerationConfig where
  temperature : Option Rat
  top_p : Option Rat
  max_tokens : Option Int
  stop_sequences : Option (List String)
  deriving DecidableEq, Repr

/-- The effective model kwargs computed by `get_llm_instance`, with the
defaults `0.1`, `1.0`, `1024`, `[]`. -/
structure ModelKwargs where
  temperature : Rat
  top_p : Rat
  max_tokens : Int
  stop_sequences : List String
  deriving DecidableEq, Repr

/-- The defaulting logic at the top of `get_llm_instance`. -/
def effectiveModelKwargs (cfg : GenerationConfig) : ModelKwargs where
  temperature := cfg.temperature.getD (1 / 10)
  top_p := cfg.top_p.getD 1
  max_tokens := cfg.max_tokens.getD 1024
  stop_sequences := cfg.stop_sequences.getD []

/-- A configured `ChatBedrock` handle: either dynamically configured
from the request, or the fixed-default fallback instance (created with
`temperature 0.1`, `maxTokenCount 1024`). -/
inductive ChatModel
  | dynamic (kwargs : ModelKwargs)
  | fallbackDefault
  deriving DecidableEq, Repr

/-- Whether each of the two `get_chat_model` calls inside
`get_llm_instance` succeeds (the wrapper raises on failure). -/
structure LlmEnv where
  dynamicInitOk : Bool
  defaultInitOk : Bool
  deriving DecidableEq, Repr

/-- Shallow embedding of `get_llm_instance`.  The dynamic
`get_chat_model` call is inside `try`; on any exception the `except`
clause creates the default instance with a second, unprotected
`get_chat_model` call, whose failure therefore escapes the function
(`Except.error`).  The Python return type is `Optional[ChatBedrock]`,
hence the `Option` in the result. -/
def get_llm_instance (env : LlmEnv) (cfg : GenerationConfig) :
    Except Unit (Option ChatModel) :=
  let kwargs := effectiveModelKwargs cfg
  if env.dynamicInitOk then Except.ok (some (ChatModel.dynamic kwargs))
  else if env.defaultInitOk then Except.ok (some ChatModel.fallbackDefault)
  else Except.error ()

/-- One entry of the DynamoDB query cache; only the fields the code
reads back are modelled (`answer` and `ttl`; the other stored fields do
not influence any later behaviour). -/
structure CacheEntry where
  answer : String
  ttl : Nat
  deriving DecidableEq, Repr

/-- Lookup in the query-cache table (DynamoDB `get_item`). -/
def lookupEntry : List (String × CacheEntry) → String → Option CacheEntry
  | [], _ => none
  | (k, v) :: rest, key => if k = key then some v else lookupEntry rest key

/-- DynamoDB `put_item` on the query-cache table: overwrite by key. -/
def putEntry (table : List (String × CacheEntry)) (key : String)
    (v : CacheEntry) : List (String × CacheEntry) :=
  table.filter (fun p => p.1 ≠ key) ++ [(key, v)]

/-- Python `str` of a boolean, as it appears inside the cache key string
`f"{composite_key}-{query_text}-{invoke_generative_llm}"`. -/
def pyBoolStr (b : Bool) : String := if b then "True" else "False"

/-- The cache key of a query.  The code hashes this string with MD5;
the hash is modelled as the string itself (the model only needs the key
to be a deterministic function of these inputs). -/
def queryHash (owner_id srd_id query_text : String) (invoke : Bool) : String :=
  compositeKey owner_id srd_id ++ "-" ++ query_text ++ "-" ++ pyBoolStr invoke

/-- Step 1 of `get_answer_from_rag`: the answer-cache check.  It only
runs when the generative LLM is invoked and `QUERY_CACHE_TABLE_NAME` is
configured; a raised exception from `get_item` (`ClientError` or any
other) is caught and treated as a miss; an entry is a hit only when
`int(entry.ttl) > time.time()`. -/
def answerCacheLookup (invoke cacheConfigured cacheGetOk : Bool)
    (table : List (String × CacheEntry)) (query_hash : String) (now : Nat) :
    Option String :=
  if invoke && cacheConfigured then
    if cacheGetOk then
      match lookupEntry table query_hash with
      | some entry => if now < entry.ttl then some entry.answer else none
      | none => none
    else none
  else none

/-- Outcome of `qa_chain.invoke`: success with the optional `"result"`
value and the `"source_documents"` list, a raised `ClientError`, or any
other raised exception. -/
inductive GenOutcome
  | ok (result : Option String) (source_documents : List String)
  | clientError
  | otherError
  deriving DecidableEq, Repr

/-- Environment of one `get_answer_from_rag` call: the clock, the cache
configuration, and the outcome of every external call the run makes. -/
structure RagEnv where
  now : Nat
  cacheConfigured : Bool
  cacheGetOk : Bool
  mergeEnv : MergeEnv
  retrieverOk : Bool
  retrieve : String → Except Unit (List String)
  llmEnv : LlmEnv
  gen : GenOutcome
  putOutcome : StepOutcome

/-- Mutable state threaded through `get_answer_from_rag`: the DynamoDB
query-cache table and the in-process FAISS index cache. -/
structure RagState where
  queryCache : List (String × CacheEntry)
  faissCache : List (String × FaissIndex)
  deriving DecidableEq, Repr

/-- The result dictionary of `get_answer_from_rag`. -/
inductive RagResult
  | cached (answer : String)
  | err (message : String)
  | retrievalOnly (answer : String)
  | llm (answer : String) (source_documents_retrieved : Nat)
  deriving DecidableEq, Repr

/-- The separator used to join retrieved chunk texts. -/
def contextSeparator : String := "\n\n---\n\n"

/-- Shallow embedding of `get_answer_from_rag`.  `Except.error` models
an exception escaping the function: nothing in it catches an exception
raised by `_load_and_merge_faiss_indices_for_srd`, by `retriever.invoke`
in the retrieval-only branch, or by `get_llm_instance`.  The final
`try` block around `qa_chain.invoke` also contains the cache write: its
inner handler catches only `ClientError`, so any other `put_item`
failure falls through to the outer generic handler. -/
def get_answer_from_rag (env : RagEnv) (st : RagState)
    (query_text owner_id srd_id : String)
    (invoke_generative_llm use_conversational_style : Bool)
    (generation_config_payload : GenerationConfig) :
    Except Unit (RagResult × RagState × List Event) :=
  let query_hash := queryHash owner_id srd_id query_text invoke_generative_llm
  -- 1. Check cache if invoking LLM and cache is configured
  match answerCacheLookup invoke_generative_llm env.cacheConfigured
      env.cacheGetOk st.queryCache query_hash env.now with
  | some answer => Except.ok (RagResult.cached answer, st, [])
  | none =>
    -- 2. Load the MERGED FAISS index for the entire SRD
    match load_and_merge_faiss_indices_for_srd st.faissCache env.mergeEnv
        owner_id srd_id with
    | Except.error e => Except.error e
    | Except.ok (none, faissCache1, ev) =>
        Except.ok (RagResult.err ("Could not load SRD data for \x27"
            ++ compositeKey owner_id srd_id ++ "\x27."),
          { st with faissCache := faissCache1 }, ev)
    | Except.ok (some _vector_store, faissCache1, ev) =>
      let st1 : RagState := { st with faissCache := faissCache1 }
      -- 3. Create the retriever (any exception is ErrorRetrieval)
      if env.retrieverOk then
        if invoke_generative_llm then
          -- conversational reformatting of the query text only affects
          -- the prompt sent to the LLM, which is absorbed into env.gen
          match get_llm_instance env.llmEnv generation_config_payload with
          | Except.error e => Except.error e
          | Except.ok none =>
              Except.ok (RagResult.err
                "Internal server error: Generative LLM component could not be configured.",
                st1, ev)
          | Except.ok (some _llm) =>
            match env.gen with
            | GenOutcome.clientError =>
                Except.ok (RagResult.err
                  "Error communicating with the AI model. Please try again.",
                  st1, ev ++ [Event.llmInvoke])
            | GenOutcome.otherError =>
                Except.ok (RagResult.err
                  "Failed to generate an answer using the RAG chain.",
                  st1, ev ++ [Event.llmInvoke])
            | GenOutcome.ok result source_documents =>
              let answer := result.getD "No answer generated."
              -- Cache the successful Bedrock response
              if env.cacheConfigured = true ∧ answer ≠ "No answer generated."
              then
                match env.putOutcome with
                | StepOutcome.ok =>
                    Except.ok (RagResult.llm answer source_documents.length,
                      { st1 with queryCache := (putEntry st1.queryCache
                          query_hash ⟨answer, env.now + CACHE_TTL_SECONDS⟩) },
                      ev ++ [Event.llmInvoke, Event.cachePut])
                | StepOutcome.clientError =>
                    -- logged, response not cached; answer still returned
                    Except.ok (RagResult.llm answer source_documents.length,
                      st1, ev ++ [Event.llmInvoke])
                | StepOutcome.otherError =>
                    -- escapes the ClientError handler, caught by the
                    -- outer generic handler of the qa_chain try block
                    Except.ok (RagResult.err
                      "Failed to generate an answer using the RAG chain.",
                      st1, ev ++ [Event.llmInvoke])
              else
                Except.ok (RagResult.llm answer source_documents.length,
                  st1, ev ++ [Event.llmInvoke])
        else
          -- retrieval-only: retriever.invoke is called with the raw
          -- query_text, never the conversational reformatting
          match env.retrieve query_text with
          | Except.error e => Except.error e
          | Except.ok docs =>
            if docs.isEmpty then
              Except.ok (RagResult.retrievalOnly
                "No specific information found to answer your query based on retrieval.",
                st1, ev)
            else
              Except.ok (RagResult.retrievalOnly
                ("Based on the retrieved SRD content for your query \x27"
                  ++ query_text ++ "\x27:\n"
                  ++ String.intercalate contextSeparator docs), st1, ev)
      else
        Except.ok (RagResult.err
          "Failed to prepare for information retrieval.", st1, ev)

/-- Environment of one `process_s3_object` run in the PDF ingestor:
the outcome of the PDF download, the page count reported by
`PyPDFLoader`, the chunk count after `RecursiveCharacterTextSplitter`,
the outcome of `FAISS.from_documents` (embedding plus index build), and
the outcome of `save_local` plus the S3 upload loop. -/
structure IngestEnv where
  download : StepOutcome
  pages : Nat
  chunks : Nat
  embedBuild : StepOutcome
  saveUpload : StepOutcome
  deriving DecidableEq, Repr

/-- Steps of `process_s3_object` that are attempted in a run. -/
inductive IngestEvent
  | buildIndex
  | uploadIndex
  deriving DecidableEq, Repr

/-- How `process_s3_object` exits: re-raising an exception, returning
`None` (empty source), or returning the metadata dictionary. -/
inductive IngestOutcome
  | raised
  | returnedNone
  | returnedMeta (chunk_count : Nat)
  deriving DecidableEq, Repr

/-- Shallow embedding of `process_s3_object` from
`pdf_ingestor/processor.py`, restricted to its effects on the document
metadata record: the sequence of `processing_status` updates it issues,
the pipeline steps it attempts, and how it exits.  On entry the record
is set to `processing`; a raised download, build or upload error is
caught by the `ClientError`/generic handlers, which set `failed` and
re-raise; zero pages or zero chunks set `failed` and return `None`;
only the full-success path sets `completed`. -/
def process_s3_object (env : IngestEnv) :
    List DocumentProcessingStatus × List IngestEvent × IngestOutcome :=
  if env.download ≠ StepOutcome.ok then
    ([DocumentProcessingStatus.processing, DocumentProcessingStatus.failed],
      [], IngestOutcome.raised)
  else if env.pages = 0 then
    ([DocumentProcessingStatus.processing, DocumentProcessingStatus.failed],
      [], IngestOutcome.returnedNone)
  else if env.chunks = 0 then
    ([DocumentProcessingStatus.processing, DocumentProcessingStatus.failed],
      [], IngestOutcome.returnedNone)
  else if env.embedBuild ≠ StepOutcome.ok then
    ([DocumentProcessingStatus.processing, DocumentProcessingStatus.failed],
      [IngestEvent.buildIndex], IngestOutcome.raised)
  else if env.saveUpload ≠ StepOutcome.ok then
    ([DocumentProcessingStatus.processing, DocumentProcessingStatus.failed],
      [IngestEvent.buildIndex, IngestEvent.uploadIndex], IngestOutcome.raised)
  else
    ([DocumentProcessingStatus.processing, DocumentProcessingStatus.completed],
      [IngestEvent.buildIndex, IngestEvent.uploadIndex],
      IngestOutcome.returnedMeta env.chunks)

/-- The valid document id of a record: `none` when the id is absent or
empty (Python falsy), matching the skip condition of the load loop. -/
def validId (d : DocRecord) : Option String :=
  match d.document_id with
  | none => none
  | some document_id => if document_id = "" then none else some document_id

/-- The stores that load successfully: one per record with a valid id
whose load outcome is `ok`. -/
def okStores (load : String → LoadOutcome) (docs : List DocRecord) :
    List FaissIndex :=
  docs.filterMap (fun d => (validId d).bind (fun document_id =>
    match load document_id with
    | LoadOutcome.ok store => some store
    | _ => none))

/-- The download attempts the load loop makes: one per record with a
valid id. -/
def attemptEvents (docs : List DocRecord) : List Event :=
  docs.filterMap (fun d => (validId d).map Event.s3Download)

/-! Helper lemmas shared by the claim theorems. -/

theorem cacheLookup_append_of_none (l1 l2 : List (String × FaissIndex))
    (k : String) (h : cacheLookup l1 k = none) :
    cacheLookup (l1 ++ l2) k = cacheLookup l2 k := by
  induction l1 with
  | nil => rfl
  | cons p rest ih =>
    obtain ⟨k', v⟩ := p
    by_cases hk : k' = k
    · simp [cacheLookup, hk] at h
    · simp only [cacheLookup, if_neg hk] at h
      simpa [cacheLookup, if_neg hk] using ih h

theorem cacheLookup_tail_of_none (l : List (String × FaissIndex))
    (k : String) (h : cacheLookup l k = none) :
    cacheLookup l.tail k = none := by
  cases l with
  | nil => rfl
  | cons p rest =>
    obtain ⟨k', v⟩ := p
    by_cases hk : k' = k
    · simp [cacheLookup, hk] at h
    · simpa [cacheLookup, if_neg hk] using h

theorem cacheLookup_cacheInsert_self (cache : List (String × FaissIndex))
    (k : String) (v : FaissIndex) (h : cacheLookup cache k = none) :
    cacheLookup (cacheInsert cache k v) k = some v := by
  unfold cacheInsert
  have hpre : cacheLookup
      (if MAX_CACHE_SIZE ≤ cache.length then cache.tail else cache) k = none := by
    split
    · exact cacheLookup_tail_of_none cache k h
    · exact h
  rw [cacheLookup_append_of_none _ _ _ hpre]
  simp [cacheLookup]

theorem cacheInsert_length_le (cache : List (String × FaissIndex))
    (k : String) (v : FaissIndex) (h : cache.length ≤ MAX_CACHE_SIZE) :
    (cacheInsert cache k v).length ≤ MAX_CACHE_SIZE := by
  unfold cacheInsert MAX_CACHE_SIZE at *
  by_cases h5 : 5 ≤ cache.length
  · simp only [if_pos h5, List.length_append, List.length_tail,
      List.length_cons, List.length_nil]
    omega
  · simp only [if_neg h5, List.length_append, List.length_cons,
      List.length_nil]
    omega

theorem loadStores_eq_of_no_raise (load : String → LoadOutcome)
    (docs : List DocRecord)
    (h : ∀ d ∈ docs, ∀ document_id, validId d = some document_id →
      load document_id ≠ LoadOutcome.otherError) :
    loadStores load docs = Except.ok (okStores load docs, attemptEvents docs) := by
  induction docs with
  | nil => rfl
  | cons d rest ih =>
    have hrest : ∀ d' ∈ rest, ∀ document_id, validId d' = some document_id →
        load document_id ≠ LoadOutcome.otherError :=
      fun d' hd' => h d' (List.mem_cons_of_mem _ hd')
    cases hid : d.document_id with
    | none =>
      have hv : validId d = none := by simp [validId, hid]
      have hok : okStores load (d :: rest) = okStores load rest := by
        simp [okStores, List.filterMap_cons, hv]
      have hev : attemptEvents (d :: rest) = attemptEvents rest := by
        simp [attemptEvents, List.filterMap_cons, hv]
      rw [hok, hev]
      simp only [loadStores, hid]
      exact ih hrest
    | some document_id =>
      by_cases hemp : document_id = ""
      · have hv : validId d = none := by simp [validId, hid, hemp]
        have hok : okStores load (d :: rest) = okStores load rest := by
          simp [okStores, List.filterMap_cons, hv]
        have hev : attemptEvents (d :: rest) = attemptEvents rest := by
          simp [attemptEvents, List.filterMap_cons, hv]
        rw [hok, hev]
        simp only [loadStores, hid, if_pos hemp]
        exact ih hrest
      · have hv : validId d = some document_id := by simp [validId, hid, hemp]
        have hld := h d (List.mem_cons_self d rest) document_id hv
        have hev : attemptEvents (d :: rest) =
            Event.s3Download document_id :: attemptEvents rest := by
          simp [attemptEvents, List.filterMap_cons, hv]
        cases hl : load document_id with
        | otherError => exact absurd hl hld
        | clientError =>
          have hok : okStores load (d :: rest) = okStores load rest := by
            simp [okStores, List.filterMap_cons, hv, hl]
          rw [hok, hev]
          simp only [loadStores, hid, if_neg hemp, hl, ih hrest]
        | ok store =>
          have hok : okStores load (d :: rest) =
              store :: okStores load rest := by
            simp [okStores, List.filterMap_cons, hv, hl]
          rw [hok, hev]
          simp only [loadStores, hid, if_neg hemp, hl, ih hrest]

theorem load_and_merge_hit (cache : List (String × FaissIndex))
    (env : MergeEnv) (owner_id srd_id : String) (store : FaissIndex)
    (h : cacheLookup cache (compositeKey owner_id srd_id) = some store) :
    load_and_merge_faiss_indices_for_srd cache env owner_id srd_id =
      Except.ok (some store, cache, []) := by
  simp only [load_and_merge_faiss_indices_for_srd, h]

theorem load_and_merge_cache_shape (cache : List (String × FaissIndex))
    (env : MergeEnv) (owner_id srd_id : String)
    (res : Option FaissIndex) (fc : List (String × FaissIndex))
    (ev : List Event)
    (h : load_and_merge_faiss_indices_for_srd cache env owner_id srd_id =
      Except.ok (res, fc, ev)) :
    fc = cache ∨ ∃ m, res = some m ∧
      fc = cacheInsert cache (compositeKey owner_id srd_id) m := by
  unfold load_and_merge_faiss_indices_for_srd at h
  split at h
  · simp at h
    exact Or.inl h.2.1.symm
  · split at h
    · simp at h
      exact Or.inl h.2.1.symm
    · split at h
      · simp at h
        exact Or.inl h.2.1.symm
      · split at h
        · simp at h
          exact Or.inl h.2.1.symm
        · split at h
          · exact absurd h (by simp)
          · split at h
            · simp at h
              exact Or.inl h.2.1.symm
            · simp at h
              exact Or.inr ⟨_, h.1.symm, h.2.1.symm⟩

theorem load_and_merge_result_lookup (cache : List (String × FaissIndex))
    (env : MergeEnv) (owner_id srd_id : String)
    (vs : FaissIndex) (fc : List (String × FaissIndex)) (ev : List Event)
    (h : load_and_merge_faiss_indices_for_srd cache env owner_id srd_id =
      Except.ok (some vs, fc, ev)) :
    cacheLookup fc (compositeKey owner_id srd_id) = some vs := by
  unfold load_and_merge_faiss_indices_for_srd at h
  split at h
  · rename_i store hlk
    simp at h
    obtain ⟨h1, h2, h3⟩ := h
    rw [← h2, ← h1]
    exact hlk
  · rename_i hlk
    split at h
    · simp at h
    · split at h
      · simp at h
      · split at h
        · simp at h
        · split at h
          · exact absurd h (by simp)
          · split at h
            · simp at h
            · simp at h
              obtain ⟨h1, h2, h3⟩ := h
              rw [← h2, ← h1]
              exact cacheLookup_cacheInsert_self _ _ _ hlk

theorem validId_eq_some (d : DocRecord) (document_id : String)
    (h : validId d = some document_id) :
    d.document_id = some document_id ∧ ¬document_id = "" := by
  cases hid : d.document_id with
  | none => simp [validId, hid] at h
  | some id' =>
    by_cases hemp : id' = ""
    · simp [validId, hid, hemp] at h
    · simp only [validId, hid, if_neg hemp, Option.some.injEq] at h
      subst h
      exact ⟨rfl, hemp⟩

theorem loadStores_skip_invalid (load : String → LoadOutcome)
    (d : DocRecord) (rest : List DocRecord) (hv : validId d = none) :
    loadStores load (d :: rest) = loadStores load rest := by
  cases hid : d.document_id with
  | none => simp [loadStores, hid]
  | some document_id =>
    have hemp : document_id = "" := by
      by_contra hne
      simp [validId, hid, hne] at hv
    simp [loadStores, hid, hemp]

theorem loadStores_filter_valid (load : String → LoadOutcome)
    (docs : List DocRecord) :
    loadStores load docs =
      loadStores load (docs.filter (fun d => (validId d).isSome)) := by
  induction docs with
  | nil => rfl
  | cons d rest ih =>
    cases hv : validId d with
    | none =>
      rw [loadStores_skip_invalid load d rest hv, ih]
      simp [List.filter_cons, hv]
    | some document_id =>
      obtain ⟨hid, hemp⟩ := validId_eq_some d document_id hv
      have hfil : (d :: rest).filter (fun d => (validId d).isSome) =
          d :: rest.filter (fun d => (validId d).isSome) := by
        simp [List.filter_cons, hv]
      rw [hfil]
      simp only [loadStores, hid, if_neg hemp]
      cases hl : load document_id <;> rw [ih]

theorem isEmpty_false_of_ne_nil {α : Type} (l : List α) (h : l ≠ []) :
    l.isEmpty = false := by
  cases l with
  | nil => exact absurd rfl h
  | cons a t => rfl

theorem load_and_merge_partial (cache : List (String × FaissIndex))
    (env : MergeEnv) (owner_id srd_id : String) (records : List DocRecord)
    (hmiss : cacheLookup cache (compositeKey owner_id srd_id) = none)
    (hq : env.queryResult = Except.ok records)
    (hno : ∀ d ∈ records.filter (fun d =>
        d.processing_status = DocumentProcessingStatus.completed),
      ∀ document_id, validId d = some document_id →
        env.load document_id ≠ LoadOutcome.otherError)
    (hsome : okStores env.load (records.filter (fun d =>
      d.processing_status = DocumentProcessingStatus.completed)) ≠ []) :
    load_and_merge_faiss_indices_for_srd cache env owner_id srd_id =
      Except.ok (some (mergeStores (okStores env.load (records.filter (fun d =>
          d.processing_status = DocumentProcessingStatus.completed)))),
        cacheInsert cache (compositeKey owner_id srd_id)
          (mergeStores (okStores env.load (records.filter (fun d =>
            d.processing_status = DocumentProcessingStatus.completed)))),
        Event.dbQuery :: attemptEvents (records.filter (fun d =>
          d.processing_status = DocumentProcessingStatus.completed))) := by
  have hfil : records.filter (fun d =>
      d.processing_status = DocumentProcessingStatus.completed) ≠ [] := by
    intro h0
    rw [h0] at hsome
    exact hsome rfl
  have hrec : records ≠ [] := by
    intro h0
    subst h0
    exact hfil rfl
  simp only [load_and_merge_faiss_indices_for_srd, hmiss, hq,
    isEmpty_false_of_ne_nil _ hrec, isEmpty_false_of_ne_nil _ hfil,
    loadStores_eq_of_no_raise env.load _ hno,
    isEmpty_false_of_ne_nil _ hsome]
  simp

theorem answerCacheLookup_of_miss (invoke cacheConfigured cacheGetOk : Bool)
    (table : List (String × CacheEntry)) (query_hash : String) (now : Nat)
    (h : lookupEntry table query_hash = none) :
    answerCacheLookup invoke cacheConfigured cacheGetOk table query_hash now =
      none := by
  cases invoke <;> cases cacheConfigured <;> cases cacheGetOk <;>
    simp [answerCacheLookup, h]

theorem answerCacheLookup_not_invoked (cacheConfigured cacheGetOk : Bool)
    (table : List (String × CacheEntry)) (query_hash : String) (now : Nat) :
    answerCacheLookup false cacheConfigured cacheGetOk table query_hash now =
      none := by
  simp [answerCacheLookup]

/-! Claim theorems. -/

/-- C5: the FAISS index cache never holds more than `MAX_CACHE_SIZE` (5)
entries.  Conjuncts: (1) `_load_and_merge_faiss_indices_for_srd`
preserves the bound; (2) an insert performed at capacity first evicts the
earliest-inserted entry (the head of the insertion-ordered list) — FIFO,
not LRU, and a cache hit leaves the cache unchanged (conjunct 3 with the
hit shape `fc = cache`); (3) the engine changes the cache only by a
`cacheInsert` of the returned composite, or not at all; (4) after
inserting `MAX_CACHE_SIZE + 1` distinct tenant keys into an empty cache,
it holds exactly `MAX_CACHE_SIZE` entries and the first-inserted key is
absent. -/
theorem faiss_cache_bounded_fifo :
    (∀ cache env owner_id srd_id res fc ev,
      load_and_merge_faiss_indices_for_srd cache env owner_id srd_id =
        Except.ok (res, fc, ev) →
      cache.length ≤ MAX_CACHE_SIZE → fc.length ≤ MAX_CACHE_SIZE)
    ∧ (∀ (cache : List (String × FaissIndex)) (k : String) (v : FaissIndex),
        cache.length = MAX_CACHE_SIZE →
        cacheInsert cache k v = cache.tail ++ [(k, v)])
    ∧ (∀ cache env owner_id srd_id res fc ev,
        load_and_merge_faiss_indices_for_srd cache env owner_id srd_id =
          Except.ok (res, fc, ev) →
        fc = cache ∨ ∃ m, res = some m ∧
          fc = cacheInsert cache (compositeKey owner_id srd_id) m)
    ∧ (cacheInsert (cacheInsert (cacheInsert (cacheInsert (cacheInsert
          (cacheInsert [] "t1" ["v"]) "t2" ["v"]) "t3" ["v"]) "t4" ["v"])
          "t5" ["v"]) "t6" ["v"]).length = MAX_CACHE_SIZE
    ∧ cacheLookup (cacheInsert (cacheInsert (cacheInsert (cacheInsert
          (cacheInsert (cacheInsert [] "t1" ["v"]) "t2" ["v"]) "t3" ["v"])
          "t4" ["v"]) "t5" ["v"]) "t6" ["v"]) "t1" = none := by
  refine ⟨?_, ?_, ?_, by decide, by decide⟩
  · intro cache env owner_id srd_id res fc ev h hle
    rcases load_and_merge_cache_shape cache env owner_id srd_id res fc ev h
      with hfc | ⟨m, hres, hfc⟩
    · rw [hfc]; exact hle
    · rw [hfc]; exact cacheInsert_length_le cache _ m hle
  · intro cache k v h
    simp [cacheInsert, h]
  · exact load_and_merge_cache_shape

/-- Witness for C5: inserting into a cache of exactly 5 entries drops
the head entry and appends the new one. -/
theorem faiss_cache_bounded_fifo_witness :
    cacheInsert [("a", ["1"]), ("b", ["2"]), ("c", ["3"]), ("d", ["4"]),
        ("e", ["5"])] "f" ["6"] =
      [("a", ["1"]), ("b", ["2"]), ("c", ["3"]), ("d", ["4"]),
        ("e", ["5"])].tail ++ [("f", ["6"])] :=
  faiss_cache_bounded_fifo.2.1
    [("a", ["1"]), ("b", ["2"]), ("c", ["3"]), ("d", ["4"]), ("e", ["5"])]
    "f" ["6"] (by decide)

/-- C6: for a tenant key already in the FAISS index cache,
`_load_and_merge_faiss_indices_for_srd` returns the cached composite
immediately, performs no metadata-store query and no object-store
download (empty event trace), and leaves the cache unchanged. -/
theorem faiss_cache_hit_frame (cache : List (String × FaissIndex))
    (env : MergeEnv) (owner_id srd_id : String) (store : FaissIndex)
    (h : cacheLookup cache (compositeKey owner_id srd_id) = some store) :
    load_and_merge_faiss_indices_for_srd cache env owner_id srd_id =
      Except.ok (some store, cache, []) :=
  load_and_merge_hit cache env owner_id srd_id store h

/-- Witness for C6: a concrete cache hit returns the cached store with an
empty event trace, even in an environment whose metadata query would
fail. -/
theorem faiss_cache_hit_frame_witness :
    load_and_merge_faiss_indices_for_srd [("u#s", ["c1"])]
      ⟨Except.error (), fun _ => LoadOutcome.clientError⟩ "u" "s" =
      Except.ok (some ["c1"], [("u#s", ["c1"])], []) :=
  faiss_cache_hit_frame [("u#s", ["c1"])]
    ⟨Except.error (), fun _ => LoadOutcome.clientError⟩ "u" "s" ["c1"]
    (by decide)

/-- C7: `process_s3_object` performs exactly the claimed status
transitions: the first update is always `processing`; the update
sequence is always `[processing, failed]` or `[processing, completed]`;
zero pages or zero chunks give `failed` and a `None` return with no
index build or upload attempted; an embedding/index-build error or an
upload error gives `failed` and a re-raise (a download error follows the
same failed-and-re-raise path); `completed` is set exactly on full
success, which returns the metadata. -/
theorem ingest_status_transitions (env : IngestEnv) :
    ((process_s3_object env).1.head? = some DocumentProcessingStatus.processing)
    ∧ ((process_s3_object env).1 =
        [DocumentProcessingStatus.processing, DocumentProcessingStatus.failed]
      ∨ (process_s3_object env).1 =
        [DocumentProcessingStatus.processing,
          DocumentProcessingStatus.completed])
    ∧ (env.download = StepOutcome.ok → (env.pages = 0 ∨ env.chunks = 0) →
        process_s3_object env =
          ([DocumentProcessingStatus.processing,
            DocumentProcessingStatus.failed], [], IngestOutcome.returnedNone))
    ∧ (env.download = StepOutcome.ok → env.pages ≠ 0 → env.chunks ≠ 0 →
        env.embedBuild ≠ StepOutcome.ok →
        process_s3_object env =
          ([DocumentProcessingStatus.processing,
            DocumentProcessingStatus.failed],
            [IngestEvent.buildIndex], IngestOutcome.raised))
    ∧ (env.download = StepOutcome.ok → env.pages ≠ 0 → env.chunks ≠ 0 →
        env.embedBuild = StepOutcome.ok → env.saveUpload ≠ StepOutcome.ok →
        process_s3_object env =
          ([DocumentProcessingStatus.processing,
            DocumentProcessingStatus.failed],
            [IngestEvent.buildIndex, IngestEvent.uploadIndex],
            IngestOutcome.raised))
    ∧ (env.download ≠ StepOutcome.ok →
        process_s3_object env =
          ([DocumentProcessingStatus.processing,
            DocumentProcessingStatus.failed], [], IngestOutcome.raised))
    ∧ ((process_s3_object env).1 =
        [DocumentProcessingStatus.processing,
          DocumentProcessingStatus.completed]
      ↔ env.download = StepOutcome.ok ∧ env.pages ≠ 0 ∧ env.chunks ≠ 0 ∧
          env.embedBuild = StepOutcome.ok ∧ env.saveUpload = StepOutcome.ok)
    ∧ (env.download = StepOutcome.ok ∧ env.pages ≠ 0 ∧ env.chunks ≠ 0 ∧
        env.embedBuild = StepOutcome.ok ∧ env.saveUpload = StepOutcome.ok →
        process_s3_object env =
          ([DocumentProcessingStatus.processing,
            DocumentProcessingStatus.completed],
            [IngestEvent.buildIndex, IngestEvent.uploadIndex],
            IngestOutcome.returnedMeta env.chunks)) := by
  obtain ⟨d, p, c, e, u⟩ := env
  cases d <;> cases e <;> cases u <;> by_cases hp : p = 0 <;>
    by_cases hc : c = 0 <;> simp_all [process_s3_object]

/-- Witness for C7: a fully successful run sets `processing` then
`completed` and returns the metadata. -/
theorem ingest_status_transitions_witness :
    process_s3_object ⟨StepOutcome.ok, 3, 7, StepOutcome.ok, StepOutcome.ok⟩ =
      ([DocumentProcessingStatus.processing,
        DocumentProcessingStatus.completed],
        [IngestEvent.buildIndex, IngestEvent.uploadIndex],
        IngestOutcome.returnedMeta 7) :=
  (ingest_status_transitions
      ⟨StepOutcome.ok, 3, 7, StepOutcome.ok, StepOutcome.ok⟩).2.2.2.2.2.2.2
    ⟨rfl, by decide, by decide, rfl, rfl⟩

/-- C2 counterexample: a deserialize failure is NOT merely logged and
skipped.  Two completed documents; `"a"` loads fine, but loading `"b"`
raises a non-`ClientError` exception (as `FAISS.load_local` does on
corrupt data).  The per-document handler catches only `ClientError`, so
the exception escapes and the whole call raises instead of returning a
composite built from document `"a"`. -/
theorem deserialize_failure_fatal_cx :
    load_and_merge_faiss_indices_for_srd []
      ⟨Except.ok [⟨some "a", DocumentProcessingStatus.completed⟩,
        ⟨some "b", DocumentProcessingStatus.completed⟩],
       fun document_id => if document_id = "a" then LoadOutcome.ok ["ca"]
         else LoadOutcome.otherError⟩ "u1" "srd1" = Except.error () := by
  rfl

/-- C2 (amended): a per-document failure that raises `ClientError` (the
download case) is skipped and the merge still returns a composite built
from the successfully loaded documents — as long as no document fails
with a non-`ClientError` exception, which instead escapes the whole
call (see the counterexample). -/
theorem clienterror_load_failures_skipped (cache : List (String × FaissIndex))
    (env : MergeEnv) (owner_id srd_id : String) (records : List DocRecord)
    (hmiss : cacheLookup cache (compositeKey owner_id srd_id) = none)
    (hq : env.queryResult = Except.ok records)
    (hno : ∀ d ∈ records.filter (fun d =>
        d.processing_status = DocumentProcessingStatus.completed),
      ∀ document_id, validId d = some document_id →
        env.load document_id ≠ LoadOutcome.otherError)
    (hsome : okStores env.load (records.filter (fun d =>
      d.processing_status = DocumentProcessingStatus.completed)) ≠ []) :
    load_and_merge_faiss_indices_for_srd cache env owner_id srd_id =
      Except.ok (some (mergeStores (okStores env.load (records.filter (fun d =>
          d.processing_status = DocumentProcessingStatus.completed)))),
        cacheInsert cache (compositeKey owner_id srd_id)
          (mergeStores (okStores env.load (records.filter (fun d =>
            d.processing_status = DocumentProcessingStatus.completed)))),
        Event.dbQuery :: attemptEvents (records.filter (fun d =>
          d.processing_status = DocumentProcessingStatus.completed))) :=
  load_and_merge_partial cache env owner_id srd_id records hmiss hq hno hsome

/-- Witness for the amended C2: of three completed documents, `"b"`
fails its download with a `ClientError` and is skipped; the composite is
built from the other two, which are also the only loaded stores. -/
theorem clienterror_load_failures_skipped_witness :
    load_and_merge_faiss_indices_for_srd []
      ⟨Except.ok [⟨some "a", DocumentProcessingStatus.completed⟩,
        ⟨some "b", DocumentProcessingStatus.completed⟩,
        ⟨some "c", DocumentProcessingStatus.completed⟩],
       fun document_id => if document_id = "b" then LoadOutcome.clientError
         else LoadOutcome.ok ["x-" ++ document_id]⟩ "u1" "srd1" =
      Except.ok (some (mergeStores (okStores
          (fun document_id => if document_id = "b" then LoadOutcome.clientError
            else LoadOutcome.ok ["x-" ++ document_id])
          ([⟨some "a", DocumentProcessingStatus.completed⟩,
            ⟨some "b", DocumentProcessingStatus.completed⟩,
            ⟨some "c", DocumentProcessingStatus.completed⟩].filter (fun d =>
              d.processing_status = DocumentProcessingStatus.completed)))),
        cacheInsert [] (compositeKey "u1" "srd1")
          (mergeStores (okStores
            (fun document_id => if document_id = "b" then LoadOutcome.clientError
              else LoadOutcome.ok ["x-" ++ document_id])
            ([⟨some "a", DocumentProcessingStatus.completed⟩,
              ⟨some "b", DocumentProcessingStatus.completed⟩,
              ⟨some "c", DocumentProcessingStatus.completed⟩].filter (fun d =>
                d.processing_status = DocumentProcessingStatus.completed)))),
        Event.dbQuery :: attemptEvents
          ([⟨some "a", DocumentProcessingStatus.completed⟩,
            ⟨some "b", DocumentProcessingStatus.completed⟩,
            ⟨some "c", DocumentProcessingStatus.completed⟩].filter (fun d =>
              d.processing_status = DocumentProcessingStatus.completed))) :=
  clienterror_load_failures_skipped []
    ⟨Except.ok [⟨some "a", DocumentProcessingStatus.completed⟩,
      ⟨some "b", DocumentProcessingStatus.completed⟩,
      ⟨some "c", DocumentProcessingStatus.completed⟩],
     fun document_id => if document_id = "b" then LoadOutcome.clientError
       else LoadOutcome.ok ["x-" ++ document_id]⟩ "u1" "srd1"
    [⟨some "a", DocumentProcessingStatus.completed⟩,
      ⟨some "b", DocumentProcessingStatus.completed⟩,
      ⟨some "c", DocumentProcessingStatus.completed⟩]
    (by decide) rfl
    (by intro d hd document_id hv; simp only []; split <;> simp)
    (by decide)

/-- C4 counterexample: with a completed document `"d1"` that loads
successfully and a completed document `"d2"` whose load raises a
non-`ClientError` exception, `_load_and_merge_faiss_indices_for_srd`
neither returns `NotFound` (`None`) nor a composite handle — the
exception escapes the call, contradicting the claim's "in every other
case it returns a composite handle". -/
theorem load_raise_neither_notfound_nor_composite_cx :
    load_and_merge_faiss_indices_for_srd []
      ⟨Except.ok [⟨some "d1", DocumentProcessingStatus.completed⟩,
        ⟨some "d2", DocumentProcessingStatus.completed⟩],
       fun document_id => if document_id = "d1" then LoadOutcome.ok ["x1"]
         else LoadOutcome.otherError⟩ "u2" "s2" = Except.error () := by
  rfl

/-- C4 (amended): provided no per-document load raises a
non-`ClientError` exception (such an exception escapes the call instead,
see the counterexample), a cache-missing tenant key gets `NotFound`
(`None`) if and only if no document record has
`processing_status == completed` or zero per-document indices loaded
successfully; in every other case a composite handle is returned. -/
theorem notfound_iff_no_completed_or_zero_loaded
    (cache : List (String × FaissIndex)) (env : MergeEnv)
    (owner_id srd_id : String) (records : List DocRecord)
    (hmiss : cacheLookup cache (compositeKey owner_id srd_id) = none)
    (hq : env.queryResult = Except.ok records)
    (hno : ∀ d ∈ records.filter (fun d =>
        d.processing_status = DocumentProcessingStatus.completed),
      ∀ document_id, validId d = some document_id →
        env.load document_id ≠ LoadOutcome.otherError) :
    ∃ res fc ev,
      load_and_merge_faiss_indices_for_srd cache env owner_id srd_id =
        Except.ok (res, fc, ev)
      ∧ (res = none ↔
          records.filter (fun d =>
            d.processing_status = DocumentProcessingStatus.completed) = []
          ∨ okStores env.load (records.filter (fun d =>
              d.processing_status = DocumentProcessingStatus.completed)) = []) := by
  by_cases hsome : okStores env.load (records.filter (fun d =>
      d.processing_status = DocumentProcessingStatus.completed)) = []
  · by_cases hrec : records = []
    · subst hrec
      refine ⟨none, cache, [Event.dbQuery], ?_, by simp⟩
      simp [load_and_merge_faiss_indices_for_srd, hmiss, hq]
    · by_cases hfil : records.filter (fun d =>
          d.processing_status = DocumentProcessingStatus.completed) = []
      · refine ⟨none, cache, [Event.dbQuery], ?_, by simp [hfil]⟩
        simp only [load_and_merge_faiss_indices_for_srd, hmiss, hq,
          isEmpty_false_of_ne_nil _ hrec, hfil]
        simp
      · refine ⟨none, cache,
          Event.dbQuery :: attemptEvents (records.filter (fun d =>
            d.processing_status = DocumentProcessingStatus.completed)),
          ?_, by simp [hsome]⟩
        simp only [load_and_merge_faiss_indices_for_srd, hmiss, hq,
          isEmpty_false_of_ne_nil _ hrec, isEmpty_false_of_ne_nil _ hfil,
          loadStores_eq_of_no_raise env.load _ hno, hsome]
        simp
  · refine ⟨some (mergeStores (okStores env.load (records.filter (fun d =>
        d.processing_status = DocumentProcessingStatus.completed)))),
      cacheInsert cache (compositeKey owner_id srd_id)
        (mergeStores (okStores env.load (records.filter (fun d =>
          d.processing_status = DocumentProcessingStatus.completed)))),
      Event.dbQuery :: attemptEvents (records.filter (fun d =>
        d.processing_status = DocumentProcessingStatus.completed)),
      load_and_merge_partial cache env owner_id srd_id records hmiss hq hno
        hsome, ?_⟩
    have hfil : records.filter (fun d =>
        d.processing_status = DocumentProcessingStatus.completed) ≠ [] := by
      intro h0
      rw [h0] at hsome
      exact hsome rfl
    simp [hfil, hsome]

/-- Witness for the amended C4: one completed, loadable document; the
result is not `NotFound` and the equivalence holds. -/
theorem notfound_iff_no_completed_or_zero_loaded_witness :
    ∃ res fc ev,
      load_and_merge_faiss_indices_for_srd []
        ⟨Except.ok [⟨some "dx", DocumentProcessingStatus.completed⟩],
          fun _ => LoadOutcome.ok ["cx"]⟩ "o1" "s1" =
        Except.ok (res, fc, ev)
      ∧ (res = none ↔
          [(⟨some "dx", DocumentProcessingStatus.completed⟩ : DocRecord)].filter
            (fun d =>
              d.processing_status = DocumentProcessingStatus.completed) = []
          ∨ okStores (fun _ => LoadOutcome.ok ["cx"])
              ([(⟨some "dx", DocumentProcessingStatus.completed⟩ :
                DocRecord)].filter (fun d =>
                  d.processing_status = DocumentProcessingStatus.completed)) =
              []) :=
  notfound_iff_no_completed_or_zero_loaded []
    ⟨Except.ok [⟨some "dx", DocumentProcessingStatus.completed⟩],
      fun _ => LoadOutcome.ok ["cx"]⟩ "o1" "s1"
    [⟨some "dx", DocumentProcessingStatus.completed⟩]
    (by decide) rfl
    (by intro d hd document_id hv; simp)

/-- C10: a document record without a `document_id` (absent or empty,
Python falsy) is silently skipped before any download attempt.
Conjuncts: (1) such a record is dropped from the load loop entirely;
(2) the loop behaves exactly as if the invalid-id records were filtered
out — they contribute no store, no download event and no failure;
(3) the presence of such a record does not make
`_load_and_merge_faiss_indices_for_srd` return `NotFound` as long as at
least one other document loads successfully. -/
theorem missing_document_id_skipped :
    (∀ (load : String → LoadOutcome) (d : DocRecord) (rest : List DocRecord),
      validId d = none → loadStores load (d :: rest) = loadStores load rest)
    ∧ (∀ (load : String → LoadOutcome) (docs : List DocRecord),
        loadStores load docs =
          loadStores load (docs.filter (fun d => (validId d).isSome)))
    ∧ (∀ cache env owner_id srd_id (records : List DocRecord) (d : DocRecord),
        cacheLookup cache (compositeKey owner_id srd_id) = none →
        env.queryResult = Except.ok records →
        d ∈ records → validId d = none →
        (∀ d' ∈ records.filter (fun d' =>
            d'.processing_status = DocumentProcessingStatus.completed),
          ∀ document_id, validId d' = some document_id →
            env.load document_id ≠ LoadOutcome.otherError) →
        okStores env.load (records.filter (fun d' =>
          d'.processing_status = DocumentProcessingStatus.completed)) ≠ [] →
        ∃ fc ev,
          load_and_merge_faiss_indices_for_srd cache env owner_id srd_id =
            Except.ok (some (mergeStores (okStores env.load
              (records.filter (fun d' =>
                d'.processing_status = DocumentProcessingStatus.completed)))),
              fc, ev)) := by
  refine ⟨loadStores_skip_invalid, loadStores_filter_valid, ?_⟩
  intro cache env owner_id srd_id records d hmiss hq hd hv hno hsome
  exact ⟨_, _,
    load_and_merge_partial cache env owner_id srd_id records hmiss hq hno
      hsome⟩

/-- Witness for C10: a record with no id next to a loadable one — the
load loop result equals that of the list without the invalid record. -/
theorem missing_document_id_skipped_witness :
    loadStores (fun _ => LoadOutcome.ok ["cb"])
      [⟨none, DocumentProcessingStatus.completed⟩,
        ⟨some "b", DocumentProcessingStatus.completed⟩] =
      loadStores (fun _ => LoadOutcome.ok ["cb"])
        [⟨some "b", DocumentProcessingStatus.completed⟩] :=
  missing_document_id_skipped.1 (fun _ => LoadOutcome.ok ["cb"])
    ⟨none, DocumentProcessingStatus.completed⟩
    [⟨some "b", DocumentProcessingStatus.completed⟩] (by decide)

/-- C8: a retrieval-only query (`invoke_generative_llm = false`) against
an available composite index calls the retriever with the raw
`query_text` (the hypothesis fixes `env.retrieve` only at `query_text`,
and the conclusion holds for every conversational-style flag), and never
returns an error for empty results: zero retrieved chunks give the fixed
no-information answer, otherwise the chunk texts joined with the
separator appear in the answer body. -/
theorem retrieval_only_never_errors (env : RagEnv) (st : RagState)
    (query_text owner_id srd_id : String) (use_conversational_style : Bool)
    (cfg : GenerationConfig) (vs : FaissIndex)
    (fc1 : List (String × FaissIndex)) (ev : List Event) (docs : List String)
    (hmerge : load_and_merge_faiss_indices_for_srd st.faissCache env.mergeEnv
      owner_id srd_id = Except.ok (some vs, fc1, ev))
    (hret : env.retrieverOk = true)
    (hdocs : env.retrieve query_text = Except.ok docs) :
    get_answer_from_rag env st query_text owner_id srd_id false
      use_conversational_style cfg =
      Except.ok (RagResult.retrievalOnly
        (if docs.isEmpty then
          "No specific information found to answer your query based on retrieval."
        else
          "Based on the retrieved SRD content for your query \x27"
            ++ query_text ++ "\x27:\n"
            ++ String.intercalate contextSeparator docs),
        ⟨st.queryCache, fc1⟩, ev) := by
  obtain ⟨qc, fcache⟩ := st
  simp only [get_answer_from_rag, answerCacheLookup_not_invoked, hmerge, hret,
    hdocs]
  by_cases hD : docs = [] <;> simp [hD]

/-- Witness for C8: a concrete retrieval-only run with two retrieved
chunks. -/
theorem retrieval_only_never_errors_witness :
    get_answer_from_rag
      ⟨0, true, true,
        ⟨Except.ok [⟨some "doc1", DocumentProcessingStatus.completed⟩],
          fun _ => LoadOutcome.ok ["chunk one"]⟩,
        true, fun _ => Except.ok ["A", "B"], ⟨true, true⟩,
        GenOutcome.ok (some "The answer.") ["ctx"], StepOutcome.ok⟩
      ⟨[], []⟩ "q" "u" "srd" false false ⟨none, none, none, none⟩ =
      Except.ok (RagResult.retrievalOnly
        (if (["A", "B"] : List String).isEmpty then
          "No specific information found to answer your query based on retrieval."
        else
          "Based on the retrieved SRD content for your query \x27"
            ++ "q" ++ "\x27:\n"
            ++ String.intercalate contextSeparator ["A", "B"]),
        ⟨[], [("u#srd", ["chunk one"])]⟩,
        [Event.dbQuery, Event.s3Download "doc1"]) :=
  retrieval_only_never_errors
    ⟨0, true, true,
      ⟨Except.ok [⟨some "doc1", DocumentProcessingStatus.completed⟩],
        fun _ => LoadOutcome.ok ["chunk one"]⟩,
      true, fun _ => Except.ok ["A", "B"], ⟨true, true⟩,
      GenOutcome.ok (some "The answer.") ["ctx"], StepOutcome.ok⟩
    ⟨[], []⟩ "q" "u" "srd" false ⟨none, none, none, none⟩
    ["chunk one"] [("u#srd", ["chunk one"])]
    [Event.dbQuery, Event.s3Download "doc1"] ["A", "B"]
    (by rfl) rfl rfl

/-- C9: a generation that succeeds with the answer exactly
`"No answer generated."` is returned as a success but never written to
the answer cache: the query-cache state is unchanged, and a repeat of
the same query against the unchanged state invokes the generation
service again (its event trace contains `llmInvoke` once more) instead
of hitting the cache. -/
theorem no_answer_generated_not_cached (env : RagEnv) (st : RagState)
    (query_text owner_id srd_id : String) (conv : Bool)
    (cfg : GenerationConfig) (vs : FaissIndex)
    (fc1 : List (String × FaissIndex)) (ev : List Event) (model : ChatModel)
    (res : Option String) (docs : List String)
    (hlookup : lookupEntry st.queryCache
      (queryHash owner_id srd_id query_text true) = none)
    (hmerge : load_and_merge_faiss_indices_for_srd st.faissCache env.mergeEnv
      owner_id srd_id = Except.ok (some vs, fc1, ev))
    (hret : env.retrieverOk = true)
    (hllm : get_llm_instance env.llmEnv cfg = Except.ok (some model))
    (hgen : env.gen = GenOutcome.ok res docs)
    (hans : res.getD "No answer generated." = "No answer generated.") :
    get_answer_from_rag env st query_text owner_id srd_id true conv cfg =
      Except.ok (RagResult.llm "No answer generated." docs.length,
        ⟨st.queryCache, fc1⟩, ev ++ [Event.llmInvoke])
    ∧ get_answer_from_rag env ⟨st.queryCache, fc1⟩ query_text owner_id srd_id
        true conv cfg =
      Except.ok (RagResult.llm "No answer generated." docs.length,
        ⟨st.queryCache, fc1⟩, [Event.llmInvoke]) := by
  obtain ⟨qc, fcache⟩ := st
  have hcc : answerCacheLookup true env.cacheConfigured env.cacheGetOk qc
      (queryHash owner_id srd_id query_text true) env.now = none :=
    answerCacheLookup_of_miss _ _ _ _ _ _ hlookup
  have hm2 : load_and_merge_faiss_indices_for_srd fc1 env.mergeEnv owner_id
      srd_id = Except.ok (some vs, fc1, []) :=
    load_and_merge_hit fc1 env.mergeEnv owner_id srd_id vs
      (load_and_merge_result_lookup fcache env.mergeEnv owner_id srd_id vs fc1
        ev hmerge)
  constructor
  · simp only [get_answer_from_rag, hcc, hmerge, hret, hllm, hgen]
    simp [hans]
  · simp only [get_answer_from_rag, hcc, hm2, hret, hllm, hgen]
    simp [hans]

/-- Witness for C9: a concrete run whose generation yields no
`"result"` key; the cache stays empty and the repeat run invokes the
model again. -/
theorem no_answer_generated_not_cached_witness :
    get_answer_from_rag
      ⟨0, true, true,
        ⟨Except.ok [⟨some "doc1", DocumentProcessingStatus.completed⟩],
          fun _ => LoadOutcome.ok ["chunk one"]⟩,
        true, fun _ => Except.ok [], ⟨true, true⟩,
        GenOutcome.ok none ["s1"], StepOutcome.ok⟩
      ⟨[], []⟩ "q" "u" "srd" true false ⟨none, none, none, none⟩ =
      Except.ok (RagResult.llm "No answer generated." 1,
        ⟨[], [("u#srd", ["chunk one"])]⟩,
        [Event.dbQuery, Event.s3Download "doc1"] ++ [Event.llmInvoke])
    ∧ get_answer_from_rag
        ⟨0, true, true,
          ⟨Except.ok [⟨some "doc1", DocumentProcessingStatus.completed⟩],
            fun _ => LoadOutcome.ok ["chunk one"]⟩,
          true, fun _ => Except.ok [], ⟨true, true⟩,
          GenOutcome.ok none ["s1"], StepOutcome.ok⟩
        ⟨[], [("u#srd", ["chunk one"])]⟩ "q" "u" "srd" true false
        ⟨none, none, none, none⟩ =
      Except.ok (RagResult.llm "No answer generated." 1,
        ⟨[], [("u#srd", ["chunk one"])]⟩, [Event.llmInvoke]) :=
  no_answer_generated_not_cached
    ⟨0, true, true,
      ⟨Except.ok [⟨some "doc1", DocumentProcessingStatus.completed⟩],
        fun _ => LoadOutcome.ok ["chunk one"]⟩,
      true, fun _ => Except.ok [], ⟨true, true⟩,
      GenOutcome.ok none ["s1"], StepOutcome.ok⟩
    ⟨[], []⟩ "q" "u" "srd" false ⟨none, none, none, none⟩
    ["chunk one"] [("u#srd", ["chunk one"])]
    [Event.dbQuery, Event.s3Download "doc1"]
    (ChatModel.dynamic (effectiveModelKwargs ⟨none, none, none, none⟩))
    none ["s1"]
    rfl (by rfl) rfl (by rfl) rfl rfl

/-- C1 counterexample: the answer-cache write is best-effort only for
`ClientError`.  Here generation succeeds with answer `"The answer."`,
but `put_item` raises a non-`ClientError` exception; it escapes the
inner `except ClientError` handler, is caught by the outer generic
handler of the `qa_chain` block, and the call returns the generic error
instead of the already-computed answer.  The second conjunct shows the
same run with a successful write returning the answer, so the write
failure did change the result. -/
theorem cache_put_generic_failure_changes_result_cx :
    get_answer_from_rag
      ⟨0, true, true,
        ⟨Except.ok [⟨some "doc1", DocumentProcessingStatus.completed⟩],
          fun _ => LoadOutcome.ok ["chunk one"]⟩,
        true, fun _ => Except.ok [], ⟨true, true⟩,
        GenOutcome.ok (some "The answer.") ["ctx"], StepOutcome.otherError⟩
      ⟨[], []⟩ "q" "u" "srd" true false ⟨none, none, none, none⟩ =
      Except.ok (RagResult.err
        "Failed to generate an answer using the RAG chain.",
        ⟨[], [("u#srd", ["chunk one"])]⟩,
        [Event.dbQuery, Event.s3Download "doc1", Event.llmInvoke])
    ∧ get_answer_from_rag
      ⟨0, true, true,
        ⟨Except.ok [⟨some "doc1", DocumentProcessingStatus.completed⟩],
          fun _ => LoadOutcome.ok ["chunk one"]⟩,
        true, fun _ => Except.ok [], ⟨true, true⟩,
        GenOutcome.ok (some "The answer.") ["ctx"], StepOutcome.ok⟩
      ⟨[], []⟩ "q" "u" "srd" true false ⟨none, none, none, none⟩ =
      Except.ok (RagResult.llm "The answer." 1,
        ⟨[("u#srd-q-True", ⟨"The answer.", 3600⟩)],
          [("u#srd", ["chunk one"])]⟩,
        [Event.dbQuery, Event.s3Download "doc1", Event.llmInvoke,
          Event.cachePut]) :=
  ⟨rfl, rfl⟩

/-- C1 (amended): after a successful generation, a cache-store put that
raises `ClientError` is logged and swallowed and the returned result
(answer text and success status) is the same as when the write succeeds
(conjuncts 1 and 2); but a put raising any other exception is caught by
the outer generic handler and turns the result into the generic
RAG-chain error (conjunct 3, see the counterexample). -/
theorem cache_put_clienterror_swallowed (env : RagEnv) (st : RagState)
    (query_text owner_id srd_id : String) (conv : Bool)
    (cfg : GenerationConfig) (vs : FaissIndex)
    (fc1 : List (String × FaissIndex)) (ev : List Event) (model : ChatModel)
    (res : Option String) (docs : List String)
    (hlookup : lookupEntry st.queryCache
      (queryHash owner_id srd_id query_text true) = none)
    (hmerge : load_and_merge_faiss_indices_for_srd st.faissCache env.mergeEnv
      owner_id srd_id = Except.ok (some vs, fc1, ev))
    (hret : env.retrieverOk = true)
    (hllm : get_llm_instance env.llmEnv cfg = Except.ok (some model))
    (hgen : env.gen = GenOutcome.ok res docs) :
    (env.putOutcome = StepOutcome.clientError →
      get_answer_from_rag env st query_text owner_id srd_id true conv cfg =
        Except.ok (RagResult.llm (res.getD "No answer generated.")
          docs.length, ⟨st.queryCache, fc1⟩, ev ++ [Event.llmInvoke]))
    ∧ (env.putOutcome = StepOutcome.ok →
        ∃ qc' ev2,
          get_answer_from_rag env st query_text owner_id srd_id true conv
            cfg =
          Except.ok (RagResult.llm (res.getD "No answer generated.")
            docs.length, ⟨qc', fc1⟩, ev2))
    ∧ (env.putOutcome = StepOutcome.otherError →
        env.cacheConfigured = true →
        res.getD "No answer generated." ≠ "No answer generated." →
        get_answer_from_rag env st query_text owner_id srd_id true conv cfg =
          Except.ok (RagResult.err
            "Failed to generate an answer using the RAG chain.",
            ⟨st.queryCache, fc1⟩, ev ++ [Event.llmInvoke])) := by
  obtain ⟨qc, fcache⟩ := st
  have hcc : answerCacheLookup true env.cacheConfigured env.cacheGetOk qc
      (queryHash owner_id srd_id query_text true) env.now = none :=
    answerCacheLookup_of_miss _ _ _ _ _ _ hlookup
  refine ⟨?_, ?_, ?_⟩
  · intro hput
    simp only [get_answer_from_rag, hcc, hmerge, hret, hllm, hgen, hput]
    simp
  · intro hput
    simp only [get_answer_from_rag, hcc, hmerge, hret, hllm, hgen, hput]
    by_cases hcond : env.cacheConfigured = true ∧
        ¬res.getD "No answer generated." = "No answer generated."
    · exact ⟨putEntry qc (queryHash owner_id srd_id query_text true)
        ⟨res.getD "No answer generated.", env.now + CACHE_TTL_SECONDS⟩,
        ev ++ [Event.llmInvoke, Event.cachePut], by simp [hcond]⟩
    · exact ⟨qc, ev ++ [Event.llmInvoke], by simp [hcond]⟩
  · intro hput hconf hans
    simp only [get_answer_from_rag, hcc, hmerge, hret, hllm, hgen, hput]
    simp [hconf, hans]

/-- Witness for the amended C1: a concrete run whose put raises
`ClientError` still returns the generated answer. -/
theorem cache_put_clienterror_swallowed_witness :
    get_answer_from_rag
      ⟨0, true, true,
        ⟨Except.ok [⟨some "doc1", DocumentProcessingStatus.completed⟩],
          fun _ => LoadOutcome.ok ["chunk one"]⟩,
        true, fun _ => Except.ok [], ⟨true, true⟩,
        GenOutcome.ok (some "The answer.") ["ctx"],
        StepOutcome.clientError⟩
      ⟨[], []⟩ "q" "u" "srd" true false ⟨none, none, none, none⟩ =
      Except.ok (RagResult.llm "The answer." 1,
        ⟨[], [("u#srd", ["chunk one"])]⟩,
        [Event.dbQuery, Event.s3Download "doc1"] ++ [Event.llmInvoke]) :=
  (cache_put_clienterror_swallowed
    ⟨0, true, true,
      ⟨Except.ok [⟨some "doc1", DocumentProcessingStatus.completed⟩],
        fun _ => LoadOutcome.ok ["chunk one"]⟩,
      true, fun _ => Except.ok [], ⟨true, true⟩,
      GenOutcome.ok (some "The answer.") ["ctx"],
      StepOutcome.clientError⟩
    ⟨[], []⟩ "q" "u" "srd" false ⟨none, none, none, none⟩
    ["chunk one"] [("u#srd", ["chunk one"])]
    [Event.dbQuery, Event.s3Download "doc1"]
    (ChatModel.dynamic (effectiveModelKwargs ⟨none, none, none, none⟩))
    (some "The answer.") ["ctx"]
    rfl (by rfl) rfl (by rfl) rfl).1 rfl

/-- C3 counterexample: when both `get_chat_model` calls fail, the
exception from the fallback escapes `get_llm_instance` and then
`get_answer_from_rag` itself (nothing catches it): the call raises
instead of returning the typed ConfigError result.  The repository's own
test `test_get_llm_instance_both_calls_fail` asserts this raise. -/
theorem llm_fallback_failure_raises_cx :
    get_answer_from_rag
      ⟨0, true, true,
        ⟨Except.ok [⟨some "doc1", DocumentProcessingStatus.completed⟩],
          fun _ => LoadOutcome.ok ["chunk one"]⟩,
        true, fun _ => Except.ok [], ⟨false, false⟩,
        GenOutcome.ok (some "The answer.") ["ctx"], StepOutcome.ok⟩
      ⟨[], []⟩ "q" "u" "srd" true false ⟨none, none, none, none⟩ =
      Except.error () := by
  rfl

/-- C3 (amended): `get_llm_instance` falls back exactly once to the
fixed-default model when the dynamic configuration fails (conjuncts 2
and 3); it never returns `None`, so the orchestrator's ConfigError
branch (`get_llm_instance` returned a falsy value) is unreachable
(conjunct 1); and when the fallback also fails the exception propagates
out of `get_llm_instance` (conjunct 4) and out of `get_answer_from_rag`
(conjunct 5) rather than producing the typed ConfigError result. -/
theorem llm_config_fallback_once :
    (∀ (envL : LlmEnv) (cfg : GenerationConfig),
      get_llm_instance envL cfg ≠ Except.ok none)
    ∧ (∀ (envL : LlmEnv) (cfg : GenerationConfig),
        envL.dynamicInitOk = true →
        get_llm_instance envL cfg =
          Except.ok (some (ChatModel.dynamic (effectiveModelKwargs cfg))))
    ∧ (∀ (envL : LlmEnv) (cfg : GenerationConfig),
        envL.dynamicInitOk = false → envL.defaultInitOk = true →
        get_llm_instance envL cfg =
          Except.ok (some ChatModel.fallbackDefault))
    ∧ (∀ (envL : LlmEnv) (cfg : GenerationConfig),
        envL.dynamicInitOk = false → envL.defaultInitOk = false →
        get_llm_instance envL cfg = Except.error ())
    ∧ (∀ (env : RagEnv) (st : RagState)
        (query_text owner_id srd_id : String) (conv : Bool)
        (cfg : GenerationConfig) (vs : FaissIndex)
        (fc1 : List (String × FaissIndex)) (ev : List Event),
        lookupEntry st.queryCache
          (queryHash owner_id srd_id query_text true) = none →
        load_and_merge_faiss_indices_for_srd st.faissCache env.mergeEnv
          owner_id srd_id = Except.ok (some vs, fc1, ev) →
        env.retrieverOk = true →
        get_llm_instance env.llmEnv cfg = Except.error () →
        get_answer_from_rag env st query_text owner_id srd_id true conv cfg =
          Except.error ()) := by
  refine ⟨?_, ?_, ?_, ?_, ?_⟩
  · intro envL cfg h
    obtain ⟨dy, df⟩ := envL
    cases dy <;> cases df <;> simp [get_llm_instance] at h
  · intro envL cfg hdyn
    simp [get_llm_instance, hdyn]
  · intro envL cfg hdyn hdef
    simp [get_llm_instance, hdyn, hdef]
  · intro envL cfg hdyn hdef
    simp [get_llm_instance, hdyn, hdef]
  · intro env st query_text owner_id srd_id conv cfg vs fc1 ev hlookup hmerge
      hret hllmerr
    obtain ⟨qc, fcache⟩ := st
    have hcc : answerCacheLookup true env.cacheConfigured env.cacheGetOk qc
        (queryHash owner_id srd_id query_text true) env.now = none :=
      answerCacheLookup_of_miss _ _ _ _ _ _ hlookup
    simp only [get_answer_from_rag, hcc, hmerge, hret, hllmerr]
    simp

/-- Witness for the amended C3: a failed dynamic configuration with a
working default yields the fallback instance. -/
theorem llm_config_fallback_once_witness :
    get_llm_instance ⟨false, true⟩ ⟨none, none, none, none⟩ =
      Except.ok (some ChatModel.fallbackDefault) :=
  llm_config_fallback_once.2.2.1 ⟨false, true⟩ ⟨none, none, none, none⟩
    rfl rfl

end ArcaneScribe
